import Mathlib

/-!
Verification of the mrq worker runtime (`src/mrq/worker.py`) against its
natural-language specification.

The Python module is shallowly embedded: pure computations become Lean
functions, effectful straight-line code becomes explicit effect traces,
and the Redis queue backend becomes an explicit state value. External
collaborators (gevent pool, Redis, MongoDB) are modelled by the contracts
the worker relies on; job payload persistence (`Job.save_retry`,
`Job.save_status`) is modelled as abstract persistence events since the
`Job` class lives outside the worker module.
-/

namespace Mrq

/-- Exception classes relevant to `perform_job`'s classification.
`timeout` is `JobTimeoutException` (raised by the armed `gevent.Timeout`),
`interrupt` is `JobInterrupt` (injected by `pool.kill` during shutdown),
and `other s` is any other `Exception` subclass, identified by name.
Python's `except tuple` test is modelled as membership of the class in the
declared list. -/
inductive ExcClass
  | timeout
  | interrupt
  | other (name : String)
deriving DecidableEq, Repr

/-- Outcome of the `job.perform()` call inside the try block: either it
returns normally or it raises an exception of some class. -/
inductive PerformResult
  | ok
  | raises (e : ExcClass)
deriving DecidableEq, Repr

/-- Persistence calls that `perform_job` can make on the job record.
`saveRetry` is `job.save_retry(...)`; `saveStatus s` is
`job.save_status(s, traceback=...)`. -/
inductive Persist
  | saveRetry
  | saveStatus (s : String)
deriving DecidableEq, Repr

/-- Slot-local state manipulated by `perform_job`: the job bound to the
slot via `set_current_job` and whether the per-job `gevent.Timeout` is
armed. -/
structure SlotState where
  currentJob : Option String
  timeoutArmed : Bool
deriving DecidableEq, Repr

/-- The try/except region of `perform_job` (everything before the
`finally` clause), embedded from `worker.py` lines 287-315: bind the job
to the slot, arm the timeout, run `job.perform()`, and classify any
raised exception by the source's except-clause order
(`job.retry_on_exceptions`, then `JobTimeoutException`, then
`JobInterrupt`, then `Exception`). Returns the slot state at the end of
the region, the list of persistence calls made, and the exception
escaping the region, if any (every modelled class is an `Exception`
subclass, so the final `except Exception` leaves none). -/
def perform_job_body (retryOn : List ExcClass) (jobId : String)
    (res : PerformResult) : SlotState × List Persist × Option ExcClass :=
  let s : SlotState := { currentJob := some jobId, timeoutArmed := true }
  match res with
  | .ok => (s, [], none)
  | .raises e =>
    if e ∈ retryOn then (s, [.saveRetry], none)
    else
      match e with
      | .timeout => (s, [.saveStatus "timeout"], none)
      | .interrupt => (s, [.saveStatus "interrupt"], none)
      | .other _ => (s, [.saveStatus "failed"], none)

/-- Full `perform_job` (`worker.py` lines 281-319): the try/except region
followed by the `finally` clause, which cancels the timeout and clears
the slot-local job binding on every exit path. -/
def perform_job (retryOn : List ExcClass) (jobId : String)
    (res : PerformResult) : SlotState × List Persist × Option ExcClass :=
  let b := perform_job_body retryOn jobId res
  ({ b.1 with timeoutArmed := false, currentJob := none }, b.2)

/-- Redis list store: each named queue maps to its FIFO contents (head of
the list is the left end, the side `lpop`/`blpop` take from). A queue
absent from the association list is empty. -/
abbrev RedisState := List (String × List String)

/-- Contents of a queue in the store; an unknown key is an empty list. -/
def rsLookup (r : RedisState) (q : String) : List String :=
  match r.lookup q with
  | some l => l
  | none => []

/-- Replaces the contents of queue `q` (first binding wins, matching
`List.lookup`). -/
def rsSet (r : RedisState) (q : String) (l : List String) : RedisState :=
  match r with
  | [] => [(q, l)]
  | (k, v) :: rest =>
    if k = q then (k, l) :: rest else (k, v) :: rsSet rest q l

/-- Behaviour of `redis.blpop(keys, 0)` relied on by `dequeue_jobs`: scan
the keys left to right and pop the head of the first non-empty queue,
returning the queue name, the popped element and the updated store.
With timeout 0 the real call blocks until some queue is non-empty; since
the model has no concurrent producers, `none` stands for blocking
forever. -/
def blpop (r : RedisState) : List String → Option (String × String × RedisState)
  | [] => none
  | q :: qs =>
    match rsLookup r q with
    | [] => blpop r qs
    | jobId :: rest => some (q, jobId, rsSet r q rest)

/-- Behaviour of a single non-blocking `lpop(q)`: pop the head of `q` if
any, returning `none` and the unchanged store otherwise. -/
def lpop (r : RedisState) (q : String) : Option String × RedisState :=
  match rsLookup r q with
  | [] => (none, r)
  | jobId :: rest => (some jobId, rsSet r q rest)

/-- The pipelined batch of `n` `lpop(q)` commands issued inside
`with self.redis.pipeline(...)`: the list of the `n` results in order,
plus the updated store. -/
def pipelineLpop (r : RedisState) (q : String) : Nat → List (Option String) × RedisState
  | 0 => ([], r)
  | n + 1 =>
    let p := lpop r q
    let rest := pipelineLpop p.2 q n
    (p.1 :: rest.1, rest.2)

/-- A materialized job as `dequeue_jobs` constructs it:
`self.job_class(job_id, worker=self, queue=queue, start=True)`. -/
structure JobM where
  id : String
  queue : String
  start : Bool
deriving DecidableEq, Repr

/-- Embedding of `Worker.dequeue_jobs` (`worker.py` lines 186-211):
one blocking pop over all the worker's queues, one job materialized with
`start=True` from its result, and, when `max_jobs > 1`, a pipeline of
`max_jobs - 1` non-blocking pops against the queue that yielded the
first job, keeping only the non-empty results (`if _job_id`). Returns
`none` when the blocking pop would block forever. -/
def dequeue_jobs (r : RedisState) (redis_queues : List String)
    (max_jobs : Nat) : Option (List JobM × RedisState) :=
  match blpop r redis_queues with
  | none => none
  | some (queue, job_id, r1) =>
    let jobs : List JobM := [{ id := job_id, queue := queue, start := true }]
    if max_jobs > 1 then
      let pres := pipelineLpop r1 queue (max_jobs - 1)
      some (jobs ++ pres.1.filterMap
        (fun o => o.map fun i => { id := i, queue := queue, start := true }), pres.2)
    else
      some (jobs, r1)

/-- The spin-wait at the top of each `work_loop` iteration
(`worker.py` lines 233-237), over the successive values returned by
`gevent_pool.free_count()`: return the first positive observation;
every non-positive observation costs one `gevent.sleep(0.01)` yield,
counted in the first component. `none` means no observation in the
given trace was positive (the loop spins on). -/
def spin_wait : List Nat → Option (Nat × Nat)
  | [] => none
  | c :: cs =>
    if 0 < c then some (0, c)
    else (spin_wait cs).map fun p => (p.1 + 1, p.2)

/-- Modelled from the spec: the concurrency pool's `spawn` contract —
claim a slot, failing with `PoolFull` (here `none`) exactly when no slot
is free. `spawn_batch free n` performs `n` consecutive spawns starting
from `free` free slots and returns the remaining free count, or `none`
if some spawn found the pool full. Slots finishing between spawns can
only increase the free count, so this is the worst case. -/
def spawn_batch : Nat → Nat → Option Nat
  | free, 0 => some free
  | 0, _ + 1 => none
  | free + 1, n + 1 => spawn_batch free n

/-- One iteration of the main `work_loop` body (`worker.py` lines
231-247), as far as pool accounting is concerned: spin-wait for a
positive `free_count`, fetch at most that many jobs with `dequeue_jobs`,
and spawn one slot per fetched job. The result is `none` when the
iteration never reaches the spawns (spinning or blocked on empty
queues), and otherwise `some` of the `spawn_batch` outcome. -/
def loop_iteration (obs : List Nat) (r : RedisState)
    (redis_queues : List String) : Option (Option Nat) :=
  match spin_wait obs with
  | none => none
  | some (_, free) =>
    match dequeue_jobs r redis_queues free with
    | none => none
    | some (jobs, _) => some (spawn_batch free jobs.length)

/-- The break test at the bottom of each `work_loop` iteration, embedded
verbatim from `worker.py` line 249:
`if self.max_jobs and self.max_jobs >= self.done_jobs: break`.
`max_jobs = 0` models a falsy `max_jobs` (0 or None). -/
def maxJobsBreak (max_jobs done_jobs : Nat) : Bool :=
  max_jobs ≠ 0 && done_jobs ≤ max_jobs

/-- Dispatch accounting of the main loop: given the sizes of the
successive fetched batches, dispatch each batch (`done_jobs += 1` per
job, `worker.py` line 247) and stop after a batch when `maxJobsBreak`
fires. Returns the total number of jobs dispatched when the loop ends;
an exhausted batch supply models an exit for another reason
(for example `StopRequested`). -/
def work_loop_dispatch (max_jobs : Nat) : Nat → List Nat → Nat
  | done, [] => done
  | done, b :: bs =>
    let done' := done + b
    if maxJobsBreak max_jobs done' then done' else work_loop_dispatch max_jobs done' bs

/-- The spec's reading of the gate (section 4.G step g:
`max_jobs > 0 and done_jobs ≥ max_jobs`), for comparison with
`maxJobsBreak`. -/
def specMaxJobsBreak (max_jobs done_jobs : Nat) : Bool :=
  max_jobs ≠ 0 && max_jobs ≤ done_jobs

/-- Observable effects emitted by the worker's straight-line code:
status updates, greenlet spawns and kills, pool join/kill, job spawns,
heartbeat reports (`report_worker(w)`), log flushes (`flush_logs(w)`)
and the `StopRequested` raise. -/
inductive WEffect
  | setStatus (s : String)
  | spawnGreenlet (g : String)
  | spawnJob (id : String)
  | poolJoin (timeout : Option Nat)
  | poolKill (exc : ExcClass) (block : Bool)
  | greenletKill (g : String) (block : Bool)
  | reportWorker (w : Nat)
  | flushLogs (w : Nat)
  | raiseStop
deriving DecidableEq, Repr

/-- Effects of `Worker.shutdown_graceful` (`worker.py` lines 321-325):
just raise `StopRequested`; the pool keeps draining. -/
def shutdown_graceful : List WEffect := [.raiseStop]

/-- Effects of `Worker.shutdown_now` (`worker.py` lines 327-335): set
status to `killing`, inject `JobInterrupt` into every live pool slot
without blocking, then raise `StopRequested`. -/
def shutdown_now : List WEffect :=
  [.setStatus "killing", .poolKill .interrupt false, .raiseStop]

/-- Operator signals handled by `install_signal_handlers`. -/
inductive Sig
  | sigint
  | sigterm
deriving DecidableEq, Repr

/-- Embedding of the signal handlers installed by
`Worker.install_signal_handlers` (`worker.py` lines 337-358): given the
current `graceful_stop` flag (initialized to `False`), a signal yields
the updated flag and the effects of the handler. A first `SIGINT` sets
the flag and runs the graceful shutdown; a `SIGINT` with the flag
already set, and any `SIGTERM`, run the forced shutdown. -/
def handle_signal (graceful_stop : Bool) : Sig → Bool × List WEffect
  | .sigint =>
    if graceful_stop then (graceful_stop, shutdown_now)
    else (true, shutdown_graceful)
  | .sigterm => (graceful_stop, shutdown_now)

/-- Setup effects of `work_loop` before the main loop (`worker.py` lines
218-227): status `started`, spawn the monitoring greenlet, and the
scheduler greenlet when configured. -/
def work_loop_setup (scheduler : Bool) : List WEffect :=
  [.setStatus "started", .spawnGreenlet "monitoring"]
    ++ (if scheduler then [.spawnGreenlet "scheduler"] else [])

/-- Effects of one dispatch pass of the loop body (`worker.py` lines
243-247): one `pool.spawn(perform_job, job)` per fetched job. -/
def loop_dispatch_effects (jobs : List JobM) : List WEffect :=
  jobs.map fun j => .spawnJob j.id

/-- Effects of the `finally` block of `work_loop` (`worker.py` lines
256-276), in source order: status `stopping`, join the pool with no
timeout, kill the pool with `JobInterrupt` blocking, kill each
background greenlet blocking (the `greenlets` dict holds `monitoring`
and, when configured, `scheduler`), then the final synchronous
heartbeat (`report_worker(w=1)`) and log flush (`flush_logs(w=1)`). -/
def work_loop_finalizer (scheduler : Bool) : List WEffect :=
  [.setStatus "stopping", .poolJoin none, .poolKill .interrupt true,
   .greenletKill "monitoring" true]
    ++ (if scheduler then [.greenletKill "scheduler" true] else [])
    ++ [.reportWorker 1, .flushLogs 1]

/-- How the `try ... except StopRequested: pass ... finally` of
`work_loop` ends: the main loop either breaks normally (the `max_jobs`
gate) or is unwound by `StopRequested`, which the `except` clause
swallows. -/
inductive LoopExit
  | maxJobsBreak
  | stopRequested
deriving DecidableEq, Repr

/-- Whole-run effect trace of `work_loop` (`worker.py` lines 213-279):
setup, then the effects `body` of the main loop up to its exit, then —
because the finalizer is a `finally` block and `StopRequested` is
swallowed — the finalizer effects, whichever way the loop exited. -/
def work_loop_trace (scheduler : Bool) (body : List WEffect)
    (e : LoopExit) : List WEffect :=
  match e with
  | .maxJobsBreak => work_loop_setup scheduler ++ body ++ work_loop_finalizer scheduler
  | .stopRequested => work_loop_setup scheduler ++ body ++ work_loop_finalizer scheduler

/-- One pass of the monitoring greenlet's loop body (`worker.py` lines
112-118): a heartbeat report and a best-effort log flush, both at
durability 0. -/
def monitoring_tick : List WEffect := [.reportWorker 0, .flushLogs 0]

/-- Recognizes a heartbeat-report effect. -/
def isReportWorker : WEffect → Bool
  | .reportWorker _ => true
  | _ => false

/-- Collections of the document store the worker writes to. -/
inductive Collection
  | jobs
  | workers
  | scheduled_jobs
  | logs
deriving DecidableEq, Repr

/-- A write against the document store: target collection, selector key,
whether it is an upsert, and the durability level `w`. -/
structure DbWrite where
  collection : Collection
  key : String
  upsert : Bool
  w : Nat
deriving DecidableEq, Repr

/-- The single write performed by `Worker.report_worker` (`worker.py`
lines 152-181): an update of the `workers` collection selected by
`{"_id": ObjectId(self.id)}` with `upsert=True` at the caller's
durability `w`. -/
def report_worker_write (workerId : String) (w : Nat) : DbWrite :=
  { collection := .workers, key := workerId, upsert := true, w := w }

/-- The config whitelist of `Worker.report_worker` (`worker.py` lines
145-150). -/
def whitelisted_config : List String :=
  ["max_jobs", "pool_size", "queues", "name"]

/-- The heartbeat's serialized config field (`worker.py` line 156):
`{k: v for k, v in self.config.iteritems() if k in whitelisted_config}`.
The Python dict is modelled as a partial map from key to value, and the
comprehension as its restriction to the whitelist. -/
def heartbeat_config (config : String → Option String) :
    String → Option String :=
  fun k => if k ∈ whitelisted_config then config k else none

/-! Helper lemmas shared by the claim theorems. -/

/-- A successful spin-wait returns a positive free count. -/
theorem spin_wait_pos (obs : List Nat) (y f : Nat)
    (h : spin_wait obs = some (y, f)) : 0 < f := by
  induction obs generalizing y with
  | nil => simp [spin_wait] at h
  | cons c cs ih =>
    simp only [spin_wait] at h
    split at h
    · next hc =>
      obtain ⟨-, rfl⟩ := Prod.mk.injEq .. ▸ Option.some.injEq .. ▸ h
      exact hc
    · rw [Option.map_eq_some'] at h
      obtain ⟨p, hp, hpe⟩ := h
      obtain ⟨-, rfl⟩ := Prod.mk.injEq .. ▸ hpe
      exact ih p.1 hp

/-- A pipelined batch of `n` pops returns exactly `n` results. -/
theorem pipelineLpop_length (r : RedisState) (q : String) (n : Nat) :
    (pipelineLpop r q n).1.length = n := by
  induction n generalizing r with
  | zero => rfl
  | succ n ih => simp [pipelineLpop, ih]

/-- A successful `dequeue_jobs` call with a budget of at least one
returns between 1 and `max_jobs` jobs. -/
theorem dequeue_jobs_length (r : RedisState) (keys : List String)
    (n : Nat) (jobs : List JobM) (r' : RedisState) (hn : 1 ≤ n)
    (h : dequeue_jobs r keys n = some (jobs, r')) :
    1 ≤ jobs.length ∧ jobs.length ≤ n := by
  unfold dequeue_jobs at h
  cases hb : blpop r keys with
  | none => rw [hb] at h; cases h
  | some t =>
    obtain ⟨q, jid, r1⟩ := t
    rw [hb] at h
    dsimp only at h
    by_cases h1 : n > 1
    · rw [if_pos h1] at h
      simp only [Option.some.injEq, Prod.mk.injEq] at h
      obtain ⟨hj, -⟩ := h
      subst hj
      have hfm := List.length_filterMap_le
        (fun o => o.map fun i => ({ id := i, queue := q, start := true } : JobM))
        (pipelineLpop r1 q (n - 1)).1
      rw [pipelineLpop_length] at hfm
      refine ⟨by simp, ?_⟩
      simp only [List.length_append, List.length_cons, List.length_nil]
      omega
    · rw [if_neg h1] at h
      simp only [Option.some.injEq, Prod.mk.injEq] at h
      obtain ⟨hj, -⟩ := h
      subst hj
      exact ⟨le_refl 1, hn⟩

/-- Every job returned by a successful `dequeue_jobs` call carries the
queue of the blocking pop and `start = true`, and the head is the job
materialized from the blocking pop itself. -/
theorem dequeue_jobs_shape (r : RedisState) (keys : List String)
    (n : Nat) (jobs : List JobM) (r' : RedisState)
    (h : dequeue_jobs r keys n = some (jobs, r')) :
    ∃ q jobId r1, blpop r keys = some (q, jobId, r1) ∧
      jobs.head? = some { id := jobId, queue := q, start := true } ∧
      ∀ j ∈ jobs, j.queue = q ∧ j.start = true := by
  unfold dequeue_jobs at h
  cases hb : blpop r keys with
  | none => rw [hb] at h; cases h
  | some t =>
    obtain ⟨q, jid, r1⟩ := t
    rw [hb] at h
    dsimp only at h
    refine ⟨q, jid, r1, rfl, ?_⟩
    by_cases h1 : n > 1
    · rw [if_pos h1] at h
      simp only [Option.some.injEq, Prod.mk.injEq] at h
      obtain ⟨hj, -⟩ := h
      subst hj
      refine ⟨rfl, ?_⟩
      intro j hj
      rcases List.mem_append.1 hj with hj | hj
      · rcases List.mem_singleton.1 hj with rfl
        exact ⟨rfl, rfl⟩
      · obtain ⟨o, -, ho⟩ := List.mem_filterMap.1 hj
        obtain ⟨i, -, rfl⟩ := Option.map_eq_some'.1 ho
        exact ⟨rfl, rfl⟩
    · rw [if_neg h1] at h
      simp only [Option.some.injEq, Prod.mk.injEq] at h
      obtain ⟨hj, -⟩ := h
      subst hj
      refine ⟨rfl, ?_⟩
      intro j hj
      rcases List.mem_singleton.1 hj with rfl
      exact ⟨rfl, rfl⟩

/-- Spawning at most as many jobs as there are free slots never hits the
`PoolFull` branch and leaves `free - n` slots. -/
theorem spawn_batch_ok (free n : Nat) (h : n ≤ free) :
    spawn_batch free n = some (free - n) := by
  induction n generalizing free with
  | zero => cases free <;> rfl
  | succ n ih =>
    cases free with
    | zero => cases h
    | succ f =>
      simp only [spawn_batch, Nat.succ_sub_succ]
      exact ih f (Nat.le_of_succ_le_succ h)

/-- The dispatch effects of a batch contain no heartbeat report. -/
theorem loop_dispatch_no_report (jobs : List JobM) :
    (loop_dispatch_effects jobs).filter isReportWorker = [] := by
  induction jobs with
  | nil => rfl
  | cons j js ih =>
    simp only [loop_dispatch_effects, List.map_cons, List.filter_cons] at ih ⊢
    simp [isReportWorker, ih]

/-! Claim theorems. -/

/-- C1 (code bug): the `max_jobs` gate at `worker.py` line 249 tests
`self.max_jobs >= self.done_jobs`, the reverse of the specified
`done_jobs ≥ max_jobs`. At the failing input `max_jobs = 3` with a first
fetched batch of a single job, the embedded gate fires (`maxJobsBreak 3 1
= true`) and the loop dispatches only 1 job instead of running until at
least 3 have been dispatched; the spec's gate would not fire there. -/
theorem work_loop_max_jobs_gate_bug :
    maxJobsBreak 3 1 = true ∧
    work_loop_dispatch 3 0 [1, 1, 1] = 1 ∧
    specMaxJobsBreak 3 1 = false ∧
    work_loop_dispatch 0 0 [1, 1, 1] = 3 := by decide

/-- C2: for every failing job, `perform_job` makes exactly one
persistence call, chosen by first match in the order of the source's
except clauses — `save_retry` when the raised class is in the job's
retry set, otherwise `save_status "timeout"` for a `JobTimeoutException`,
`save_status "interrupt"` for a `JobInterrupt`, and
`save_status "failed"` for any other failure — and no exception escapes
the slot. -/
theorem perform_job_failure_classification (retryOn : List ExcClass)
    (jobId : String) (e : ExcClass) :
    (perform_job retryOn jobId (.raises e)).2.2 = none ∧
    (perform_job retryOn jobId (.raises e)).2.1.length = 1 ∧
    (if e ∈ retryOn then
      (perform_job retryOn jobId (.raises e)).2.1 = [.saveRetry]
     else if e = .timeout then
      (perform_job retryOn jobId (.raises e)).2.1 = [.saveStatus "timeout"]
     else if e = .interrupt then
      (perform_job retryOn jobId (.raises e)).2.1 = [.saveStatus "interrupt"]
     else
      (perform_job retryOn jobId (.raises e)).2.1 = [.saveStatus "failed"]) := by
  unfold perform_job perform_job_body
  by_cases hr : e ∈ retryOn
  · simp [hr]
  · cases e <;> simp [hr]

/-- Witness for C2 at a failure class outside an empty retry set. -/
theorem perform_job_failure_classification_witness :
    (perform_job [] "job2" (.raises (.other "ValueError"))).2.2 = none ∧
    (perform_job [] "job2" (.raises (.other "ValueError"))).2.1
      = [.saveStatus "failed"] := by
  have h := perform_job_failure_classification [] "job2" (.other "ValueError")
  exact ⟨h.1, by simpa using h.2.2⟩

/-- C3: the first `SIGINT` only raises `StopRequested` (graceful); a
second `SIGINT` after a graceful request, and any `SIGTERM`, run the
forced shutdown, which sets status `killing`, kills every live pool slot
with `JobInterrupt` without blocking, and then raises `StopRequested`. -/
theorem shutdown_signal_protocol (g : Bool) :
    handle_signal false .sigint = (true, shutdown_graceful) ∧
    handle_signal true .sigint = (true, shutdown_now) ∧
    handle_signal g .sigterm = (g, shutdown_now) ∧
    shutdown_graceful = [.raiseStop] ∧
    shutdown_now =
      [.setStatus "killing", .poolKill .interrupt false, .raiseStop] :=
  ⟨rfl, rfl, rfl, rfl, rfl⟩

/-- C4: on either way out of the main loop (`StopRequested` or the
`max_jobs` break) the trace of `work_loop` ends with the finalizer
effects, and those are, in order: status `stopping`, pool join without
timeout, pool kill with `JobInterrupt` blocking, blocking kills of the
background greenlets (monitoring, plus scheduler when enabled), the
final synchronous heartbeat at durability 1, and the final synchronous
log flush at durability 1. -/
theorem work_loop_finalizer_always_runs (scheduler : Bool)
    (body : List WEffect) (e : LoopExit) :
    (∃ pre, work_loop_trace scheduler body e
      = pre ++ work_loop_finalizer scheduler) ∧
    work_loop_finalizer scheduler =
      [.setStatus "stopping", .poolJoin none, .poolKill .interrupt true,
       .greenletKill "monitoring" true]
        ++ (if scheduler then [.greenletKill "scheduler" true] else [])
        ++ [.reportWorker 1, .flushLogs 1] := by
  refine ⟨⟨work_loop_setup scheduler ++ body, ?_⟩, rfl⟩
  cases e <;> simp [work_loop_trace]

/-- C5: a successful `dequeue_jobs` call with budget `n ≥ 1` starts with
one blocking pop over all the worker's queues, materializes its result
with `start = true` as the head of the returned list, returns between 1
and `n` jobs in total (the tail coming from the `n - 1` pipelined
non-blocking pops, empties filtered out), and every returned job is from
the queue that yielded the blocking pop, with `start = true`. -/
theorem dequeue_jobs_spec (r : RedisState) (keys : List String) (n : Nat)
    (jobs : List JobM) (r' : RedisState)
    (hn : 1 ≤ n) (h : dequeue_jobs r keys n = some (jobs, r')) :
    1 ≤ jobs.length ∧ jobs.length ≤ n ∧
    ∃ q jobId r1, blpop r keys = some (q, jobId, r1) ∧
      jobs.head? = some { id := jobId, queue := q, start := true } ∧
      ∀ j ∈ jobs, j.queue = q ∧ j.start = true := by
  obtain ⟨h1, h2⟩ := dequeue_jobs_length r keys n jobs r' hn h
  exact ⟨h1, h2, dequeue_jobs_shape r keys n jobs r' h⟩

/-- Example Redis store for the C5 witness. -/
def rEx : RedisState := [("q1", ["a", "b"])]

/-- Jobs that `dequeue_jobs rEx ["q1"] 3` returns. -/
def jobsEx : List JobM :=
  [{ id := "a", queue := "q1", start := true },
   { id := "b", queue := "q1", start := true }]

/-- Witness for C5 at the concrete store `rEx` with budget 3. -/
theorem dequeue_jobs_spec_witness :
    1 ≤ jobsEx.length ∧ jobsEx.length ≤ 3 ∧
    ∃ q jobId r1, blpop rEx ["q1"] = some (q, jobId, r1) ∧
      jobsEx.head? = some { id := jobId, queue := q, start := true } ∧
      ∀ j ∈ jobsEx, j.queue = q ∧ j.start = true :=
  dequeue_jobs_spec rEx ["q1"] 3 jobsEx [("q1", [])] (by decide) (by decide)

/-- C6: whenever a loop iteration reaches its dispatch phase, the
spin-wait has returned a positive free count, `dequeue_jobs` fetched at
most that many jobs, and spawning them one by one never finds the pool
full: the `PoolFull` outcome (`none`) is unreachable. -/
theorem spawn_never_on_full_pool (obs : List Nat) (r : RedisState)
    (keys : List String) (res : Option Nat)
    (h : loop_iteration obs r keys = some res) :
    ∃ remaining, res = some remaining := by
  unfold loop_iteration at h
  cases hs : spin_wait obs with
  | none => rw [hs] at h; cases h
  | some p =>
    obtain ⟨y, free⟩ := p
    rw [hs] at h
    dsimp only at h
    have hfree : 0 < free := spin_wait_pos obs y free hs
    cases hd : dequeue_jobs r keys free with
    | none => rw [hd] at h; cases h
    | some pr =>
      obtain ⟨jobs, r2⟩ := pr
      rw [hd] at h
      dsimp only at h
      simp only [Option.some.injEq] at h
      obtain ⟨-, hlen⟩ := dequeue_jobs_length r keys free jobs r2 hfree hd
      exact ⟨free - jobs.length, by rw [← h]; exact spawn_batch_ok free jobs.length hlen⟩

/-- Example Redis store for the C6 witness. -/
def rEx2 : RedisState := [("q1", ["a", "b", "c"])]

/-- Witness for C6: with free-count observations `[0, 2]` and three jobs
on the queue, the iteration spawns 2 jobs and ends with 0 free slots,
never hitting `PoolFull`. -/
theorem spawn_never_on_full_pool_witness :
    ∃ remaining, (some 0 : Option Nat) = some remaining :=
  spawn_never_on_full_pool [0, 2] rEx2 ["q1"] (some 0) (by decide)

/-- C7: the heartbeat's serialized config is the restriction of the
worker config to the whitelist `{max_jobs, pool_size, queues, name}`:
no key outside the whitelist ever appears, and two configs that agree on
the whitelisted keys — however they differ elsewhere, for example in
secrets — produce identical heartbeat config fields. -/
theorem heartbeat_config_whitelisted (c1 c2 : String → Option String) :
    (∀ k, k ∉ whitelisted_config → heartbeat_config c1 k = none) ∧
    ((∀ k ∈ whitelisted_config, c1 k = c2 k) →
      heartbeat_config c1 = heartbeat_config c2) := by
  constructor
  · intro k hk
    simp [heartbeat_config, hk]
  · intro hagree
    funext k
    unfold heartbeat_config
    by_cases hk : k ∈ whitelisted_config
    · simp [hk, hagree k hk]
    · simp [hk]

/-- Example config with a secret, for the C7 witness. -/
def cEx1 : String → Option String := fun k =>
  [("queues", "default"), ("name", "w1"),
   ("redis_password", "hunter2")].lookup k

/-- The same config with a different secret, for the C7 witness. -/
def cEx2 : String → Option String := fun k =>
  [("queues", "default"), ("name", "w1"),
   ("redis_password", "s3cret")].lookup k

/-- Witness for C7: the secret key is projected away, and the two
configs differing only in it serialize identically. -/
theorem heartbeat_config_whitelisted_witness :
    heartbeat_config cEx1 "redis_password" = none ∧
    heartbeat_config cEx1 = heartbeat_config cEx2 :=
  ⟨(heartbeat_config_whitelisted cEx1 cEx2).1 "redis_password" (by decide),
   (heartbeat_config_whitelisted cEx1 cEx2).2 (by decide)⟩

/-- C8: on every exit path of `perform_job` — success or any of the
failure classifications — the `finally` clause disarms the timeout that
the prologue armed and clears the slot-local job binding that the
prologue installed, so no job remains bound to the slot after it
exits. -/
theorem perform_job_clears_slot (retryOn : List ExcClass)
    (jobId : String) (res : PerformResult) :
    (perform_job retryOn jobId res).1.timeoutArmed = false ∧
    (perform_job retryOn jobId res).1.currentJob = none ∧
    (perform_job_body retryOn jobId res).1.timeoutArmed = true ∧
    (perform_job_body retryOn jobId res).1.currentJob = some jobId := by
  unfold perform_job perform_job_body
  cases res with
  | ok => simp
  | raises e =>
    by_cases hr : e ∈ retryOn
    · simp [hr]
    · cases e <;> simp [hr]

/-- C9: the only write `report_worker` performs on the document store is
an upsert into the `workers` collection keyed by the worker's ID, and
within the worker module's effect traces a heartbeat report appears
exactly once per monitoring tick (durability 0) and exactly once in the
shutdown finalizer (durability 1) — never in the loop setup, in the
dispatch of a batch, or in a signal handler. -/
theorem heartbeat_writers (workerId : String) (w : Nat)
    (scheduler g : Bool) (jobs : List JobM) (sig : Sig) :
    report_worker_write workerId w =
      { collection := .workers, key := workerId, upsert := true, w := w } ∧
    monitoring_tick.filter isReportWorker = [.reportWorker 0] ∧
    (work_loop_finalizer scheduler).filter isReportWorker
      = [.reportWorker 1] ∧
    (work_loop_setup scheduler).filter isReportWorker = [] ∧
    (loop_dispatch_effects jobs).filter isReportWorker = [] ∧
    ((handle_signal g sig).2).filter isReportWorker = [] := by
  refine ⟨rfl, rfl, ?_, ?_, loop_dispatch_no_report jobs, ?_⟩
  · cases scheduler <;> rfl
  · cases scheduler <;> rfl
  · cases g <;> cases sig <;> rfl

/-- C10: because the retry-set clause precedes the timeout and interrupt
clauses in `perform_job`, a job whose declared retry set contains
`JobTimeoutException` (resp. `JobInterrupt`) persists a timed-out (resp.
interrupted) execution with `save_retry` instead of
`save_status "timeout"` (resp. `save_status "interrupt"`). -/
theorem retry_takes_precedence (retryOn : List ExcClass) (jobId : String)
    (ht : ExcClass.timeout ∈ retryOn) (hi : ExcClass.interrupt ∈ retryOn) :
    (perform_job retryOn jobId (.raises .timeout)).2.1 = [.saveRetry] ∧
    (perform_job retryOn jobId (.raises .interrupt)).2.1 = [.saveRetry] := by
  unfold perform_job perform_job_body
  simp [ht, hi]

/-- Witness for C10 with a retry set declaring both cancellation
classes. -/
theorem retry_takes_precedence_witness :
    (perform_job [ExcClass.timeout, ExcClass.interrupt] "job1"
      (.raises .timeout)).2.1 = [.saveRetry] ∧
    (perform_job [ExcClass.timeout, ExcClass.interrupt] "job1"
      (.raises .interrupt)).2.1 = [.saveRetry] :=
  retry_takes_precedence [ExcClass.timeout, ExcClass.interrupt] "job1"
    (by decide) (by decide)

end Mrq
